import Mathlib

/-!
Shallow embedding of the Carousel navigation/state engine of
`src/carousel.ts` (class `Carousel`).

DOM-only side effects (track transform, indicator classes, counter text,
button enablement, icons) are abstracted away; the render pass
`updateCarousel` is kept as a state transition that counts render passes
and performs its one engine-relevant action, the autoplay-timer reset.
The browser timer API (`window.setInterval` / `clearInterval`) is made
explicit: the state carries the list of currently scheduled timers
(handle and period) and a fresh-handle counter, so that timer-discipline
claims are statable.

All JS numbers occurring here are integral, so they are modelled as `Int`.
-/

namespace Carousel

/-- Configuration object, from `interface CarouselConfig`: three optional
fields (`undefined` is `none`). -/
structure Config where
  autoPlayInterval : Option Int
  enableAutoPlay : Option Bool
  enableLoop : Option Bool
deriving Repr, DecidableEq

/-- The engine state: the `Carousel` class fields that are not DOM handles
(`currentIndex`, `totalSlides`, `autoPlayInterval`, `autoPlayTimer`,
`isPlaying`, `enableLoop`), plus an explicit model of the timer runtime
(`activeTimers`: scheduled timers as (handle, period) pairs; `nextHandle`:
the next handle `window.setInterval` will return) and a counter of render
passes (`renders`: how many times `updateCarousel` has run). -/
structure State where
  currentIndex : Int
  totalSlides : Int
  autoPlayInterval : Int
  autoPlayTimer : Option Nat
  isPlaying : Bool
  enableLoop : Bool
  activeTimers : List (Nat × Int)
  nextHandle : Nat
  renders : Nat
deriving Repr, DecidableEq

/-- Model of `window.setInterval(cb, ms)`: schedules a recurring timer and
returns a fresh handle. -/
def setIntervalFn (s : State) (ms : Int) : State × Nat :=
  ({ s with
      activeTimers := (s.nextHandle, ms) :: s.activeTimers,
      nextHandle := s.nextHandle + 1 },
   s.nextHandle)

/-- Model of `clearInterval(h)`: cancels the timer with handle `h`, if
scheduled. -/
def clearIntervalFn (s : State) (h : Nat) : State :=
  { s with activeTimers := s.activeTimers.filter (fun t => t.1 ≠ h) }

/-- Source `resetAutoPlay()`: clear the recorded timer if there is one,
then `this.autoPlayTimer = window.setInterval(() => this.nextSlide(), this.autoPlayInterval)`. -/
def resetAutoPlay (s : State) : State :=
  let s1 := match s.autoPlayTimer with
    | some h => clearIntervalFn s h
    | none => s
  let p := setIntervalFn s1 s1.autoPlayInterval
  { p.1 with autoPlayTimer := some p.2 }

/-- Source `updateCarousel()`: the render pass. Its DOM writes are
abstracted to incrementing the render counter; its engine action is
`if (this.isPlaying) this.resetAutoPlay()`. -/
def updateCarousel (s : State) : State :=
  let s1 := { s with renders := s.renders + 1 }
  if s1.isPlaying then resetAutoPlay s1 else s1

/-- Source `previousSlide()`: if `currentIndex > 0` decrement, else if
`enableLoop` set `currentIndex = totalSlides - 1`; then `updateCarousel()`. -/
def previousSlide (s : State) : State :=
  let s1 :=
    if s.currentIndex > 0 then { s with currentIndex := s.currentIndex - 1 }
    else if s.enableLoop then { s with currentIndex := s.totalSlides - 1 }
    else s
  updateCarousel s1

/-- Source `nextSlide()`: if `currentIndex < totalSlides - 1` increment,
else if `enableLoop` set `currentIndex = 0`; then `updateCarousel()`. -/
def nextSlide (s : State) : State :=
  let s1 :=
    if s.currentIndex < s.totalSlides - 1 then { s with currentIndex := s.currentIndex + 1 }
    else if s.enableLoop then { s with currentIndex := 0 }
    else s
  updateCarousel s1

/-- Source `goToSlide(index)`: if `index >= 0 && index < totalSlides`, set
`currentIndex = index` and run `updateCarousel()`; otherwise do nothing. -/
def goToSlide (s : State) (index : Int) : State :=
  if index ≥ 0 ∧ index < s.totalSlides then
    updateCarousel { s with currentIndex := index }
  else s

/-- Source `startAutoPlay()`: set `this.isPlaying = true` (plus DOM-only
icon/text updates), then
`this.autoPlayTimer = window.setInterval(..., this.autoPlayInterval)`.
Note: it does NOT clear a previously scheduled timer. -/
def startAutoPlay (s : State) : State :=
  let s1 := { s with isPlaying := true }
  let p := setIntervalFn s1 s1.autoPlayInterval
  { p.1 with autoPlayTimer := some p.2 }

/-- Source `stopAutoPlay()`: set `this.isPlaying = false` (plus DOM-only
updates), then if `this.autoPlayTimer !== null`, clear it and set it to
null. -/
def stopAutoPlay (s : State) : State :=
  let s1 := { s with isPlaying := false }
  match s1.autoPlayTimer with
  | some h => { clearIntervalFn s1 h with autoPlayTimer := none }
  | none => s1

/-- Source `toggleAutoPlay()`: stop if playing, else start. -/
def toggleAutoPlay (s : State) : State :=
  if s.isPlaying then stopAutoPlay s else startAutoPlay s

/-- Source `destroy()`: calls `this.stopAutoPlay()`. -/
def destroy (s : State) : State :=
  stopAutoPlay s

/-- The constructor (engine part): `totalSlides = slides.length`,
`autoPlayInterval = config.autoPlayInterval || 3000` (JS `||`: the default
applies to every falsy value, hence also to `0`),
`enableLoop = config.enableLoop !== undefined ? config.enableLoop : true`;
field initializers give `currentIndex = 0`, `autoPlayTimer = null`,
`isPlaying = false`; `config.enableAutoPlay` is never read. `init()` then
runs one render pass (`updateCarousel`); its other calls
(`createIndicators`, `attachEventListeners`, `updateTotalSlides`) are
DOM-only. -/
def mkCarousel (config : Config) (numSlides : Int) : State :=
  let s : State :=
    { currentIndex := 0
      totalSlides := numSlides
      autoPlayInterval :=
        match config.autoPlayInterval with
        | some v => if v = 0 then 3000 else v
        | none => 3000
      autoPlayTimer := none
      isPlaying := false
      enableLoop :=
        match config.enableLoop with
        | some b => b
        | none => true
      activeTimers := []
      nextHandle := 0
      renders := 0 }
  updateCarousel s

/-- The two manual navigation operations, for claims quantifying over
sequences of `nextSlide` / `previousSlide` calls. -/
inductive NavOp where
  | next : NavOp
  | prev : NavOp
deriving Repr, DecidableEq

/-- Apply one navigation operation. -/
def applyNav (op : NavOp) (s : State) : State :=
  match op with
  | NavOp.next => nextSlide s
  | NavOp.prev => previousSlide s

/-- Run a sequence of navigation operations, first one first. -/
def runNav (ops : List NavOp) (s : State) : State :=
  ops.foldl (fun t op => applyNav op t) s

/-- The public interface of the carousel controller: prev/next buttons,
arrow keys and swipes call `previousSlide`/`nextSlide`, indicators call
`goToSlide`, the play/pause control calls `toggleAutoPlay`, and teardown
calls `destroy` (= `stopAutoPlay`). -/
inductive Op where
  | next : Op
  | prev : Op
  | goTo : Int → Op
  | toggle : Op
  | stop : Op
deriving Repr, DecidableEq

/-- Apply one public operation. -/
def applyOp (op : Op) (s : State) : State :=
  match op with
  | Op.next => nextSlide s
  | Op.prev => previousSlide s
  | Op.goTo k => goToSlide s k
  | Op.toggle => toggleAutoPlay s
  | Op.stop => stopAutoPlay s

/-- Run a sequence of public operations, first one first. -/
def runOps (ops : List Op) (s : State) : State :=
  ops.foldl (fun t op => applyOp op t) s

/-- Timer discipline invariant: the scheduled timers are exactly the one
recorded in `autoPlayTimer` (so at most one timer is active and no handle
is leaked), a non-playing carousel holds no timer, and all scheduled
handles are stale relative to the fresh-handle counter. -/
def TimerInv (s : State) : Prop :=
  s.activeTimers.map Prod.fst = s.autoPlayTimer.toList
  ∧ (s.isPlaying = false → s.autoPlayTimer = none)
  ∧ ∀ t ∈ s.activeTimers, t.1 < s.nextHandle

instance (s : State) : Decidable (TimerInv s) := by
  unfold TimerInv
  infer_instance

/-- A plain engine state used as a concrete test fixture in the theorems
below: index `k` of `n` slides, looping per `loop`, not playing. -/
def fixture (k n : Int) (loop : Bool) : State :=
  { currentIndex := k, totalSlides := n, autoPlayInterval := 3000,
    autoPlayTimer := none, isPlaying := false, enableLoop := loop,
    activeTimers := [], nextHandle := 0, renders := 0 }

/-- A concrete playing carousel (3 slides, default config, autoplay
started), used as a fixture by witnesses of autoplay claims. -/
def playingFixture : State :=
  startAutoPlay (mkCarousel (Config.mk none none none) 3)

/-! Helper lemmas: the render pass touches only the render counter and the
timer fields, never the navigation state. -/

@[simp]
lemma updateCarousel_currentIndex (s : State) :
    (updateCarousel s).currentIndex = s.currentIndex := by
  rcases s with ⟨i, n, ms, tmr, p, lp, act, nh, r⟩
  cases p <;> cases tmr <;> rfl

@[simp]
lemma updateCarousel_totalSlides (s : State) :
    (updateCarousel s).totalSlides = s.totalSlides := by
  rcases s with ⟨i, n, ms, tmr, p, lp, act, nh, r⟩
  cases p <;> cases tmr <;> rfl

@[simp]
lemma updateCarousel_enableLoop (s : State) :
    (updateCarousel s).enableLoop = s.enableLoop := by
  rcases s with ⟨i, n, ms, tmr, p, lp, act, nh, r⟩
  cases p <;> cases tmr <;> rfl

@[simp]
lemma updateCarousel_isPlaying (s : State) :
    (updateCarousel s).isPlaying = s.isPlaying := by
  rcases s with ⟨i, n, ms, tmr, p, lp, act, nh, r⟩
  cases p <;> cases tmr <;> rfl

@[simp]
lemma updateCarousel_autoPlayInterval (s : State) :
    (updateCarousel s).autoPlayInterval = s.autoPlayInterval := by
  rcases s with ⟨i, n, ms, tmr, p, lp, act, nh, r⟩
  cases p <;> cases tmr <;> rfl

@[simp]
lemma updateCarousel_renders (s : State) :
    (updateCarousel s).renders = s.renders + 1 := by
  rcases s with ⟨i, n, ms, tmr, p, lp, act, nh, r⟩
  cases p <;> cases tmr <;> rfl

lemma nextSlide_currentIndex (s : State) :
    (nextSlide s).currentIndex =
      if s.currentIndex < s.totalSlides - 1 then s.currentIndex + 1
      else if s.enableLoop then 0 else s.currentIndex := by
  simp only [nextSlide]
  split_ifs <;> simp

lemma previousSlide_currentIndex (s : State) :
    (previousSlide s).currentIndex =
      if s.currentIndex > 0 then s.currentIndex - 1
      else if s.enableLoop then s.totalSlides - 1 else s.currentIndex := by
  simp only [previousSlide]
  split_ifs <;> simp

lemma applyNav_totalSlides (op : NavOp) (s : State) :
    (applyNav op s).totalSlides = s.totalSlides := by
  cases op <;> simp only [applyNav, nextSlide, previousSlide] <;> split_ifs <;> simp

lemma applyNav_index_range (op : NavOp) (s : State)
    (hN : 1 ≤ s.totalSlides) (h0 : 0 ≤ s.currentIndex)
    (h1 : s.currentIndex < s.totalSlides) :
    0 ≤ (applyNav op s).currentIndex ∧
      (applyNav op s).currentIndex < (applyNav op s).totalSlides := by
  rw [applyNav_totalSlides]
  cases op
  case next =>
    simp only [applyNav, nextSlide_currentIndex]
    split_ifs <;> omega
  case prev =>
    simp only [applyNav, previousSlide_currentIndex]
    split_ifs <;> omega

/-! Helper lemmas about the timer model. -/

@[simp]
lemma resetAutoPlay_autoPlayTimer (s : State) :
    (resetAutoPlay s).autoPlayTimer = some s.nextHandle := by
  rcases s with ⟨i, n, ms, tmr, p, lp, act, nh, r⟩
  cases tmr <;> rfl

@[simp]
lemma resetAutoPlay_nextHandle (s : State) :
    (resetAutoPlay s).nextHandle = s.nextHandle + 1 := by
  rcases s with ⟨i, n, ms, tmr, p, lp, act, nh, r⟩
  cases tmr <;> rfl

@[simp]
lemma resetAutoPlay_isPlaying (s : State) :
    (resetAutoPlay s).isPlaying = s.isPlaying := by
  rcases s with ⟨i, n, ms, tmr, p, lp, act, nh, r⟩
  cases tmr <;> rfl

lemma resetAutoPlay_activeTimers_none (s : State) (h : s.autoPlayTimer = none) :
    (resetAutoPlay s).activeTimers = (s.nextHandle, s.autoPlayInterval) :: s.activeTimers := by
  rcases s with ⟨i, n, ms, tmr, p, lp, act, nh, r⟩
  cases tmr
  · rfl
  · simp at h

lemma resetAutoPlay_activeTimers_some (s : State) (h0 : Nat)
    (h : s.autoPlayTimer = some h0) :
    (resetAutoPlay s).activeTimers =
      (s.nextHandle, s.autoPlayInterval) :: s.activeTimers.filter (fun t => t.1 ≠ h0) := by
  rcases s with ⟨i, n, ms, tmr, p, lp, act, nh, r⟩
  cases tmr
  · simp at h
  · simp at h
    subst h
    rfl

lemma act_eq_of_map_some (act : List (Nat × Int)) (h0 : Nat)
    (h : act.map Prod.fst = [h0]) :
    ∃ m, act = [(h0, m)] := by
  cases act with
  | nil => simp at h
  | cons a as =>
    simp at h
    obtain ⟨ha, hb⟩ := h
    subst hb
    exact ⟨a.2, by rw [← ha]⟩

lemma resetAutoPlay_activeTimers_inv (s : State)
    (h1 : s.activeTimers.map Prod.fst = s.autoPlayTimer.toList) :
    (resetAutoPlay s).activeTimers = [(s.nextHandle, s.autoPlayInterval)] := by
  cases htm : s.autoPlayTimer with
  | none =>
    rw [htm] at h1
    simp at h1
    rw [resetAutoPlay_activeTimers_none s htm, h1]
  | some h0 =>
    rw [htm] at h1
    rw [resetAutoPlay_activeTimers_some s h0 htm]
    cases hact : s.activeTimers with
    | nil => simp
    | cons a as =>
      rw [hact] at h1
      simp at h1
      obtain ⟨ha, hb⟩ := h1
      subst hb
      simp [List.filter, ha]

lemma timerInv_updateCarousel (s : State) (h : TimerInv s) :
    TimerInv (updateCarousel s) := by
  obtain ⟨h1, h2, h3⟩ := h
  rcases s with ⟨i, n, ms, tmr, p, lp, act, nh, r⟩
  cases p with
  | false => exact ⟨h1, h2, h3⟩
  | true =>
    have hrw : updateCarousel (State.mk i n ms tmr true lp act nh r)
        = resetAutoPlay (State.mk i n ms tmr true lp act nh (r + 1)) := rfl
    rw [hrw]
    refine ⟨?_, ?_, ?_⟩
    · rw [resetAutoPlay_activeTimers_inv (State.mk i n ms tmr true lp act nh (r + 1)) h1,
        resetAutoPlay_autoPlayTimer]
      rfl
    · intro hfalse
      rw [resetAutoPlay_isPlaying] at hfalse
      simp at hfalse
    · intro t ht
      rw [resetAutoPlay_activeTimers_inv (State.mk i n ms tmr true lp act nh (r + 1)) h1] at ht
      rw [resetAutoPlay_nextHandle]
      simp at ht
      subst ht
      simp

lemma timerInv_startAutoPlay (s : State) (h : TimerInv s)
    (hp : s.isPlaying = false) : TimerInv (startAutoPlay s) := by
  obtain ⟨h1, h2, h3⟩ := h
  have htm := h2 hp
  rw [htm] at h1
  simp at h1
  rcases s with ⟨i, n, ms, tmr, p, lp, act, nh, r⟩
  simp at htm hp h1
  subst htm hp h1
  refine ⟨by simp [startAutoPlay, setIntervalFn], by simp [startAutoPlay, setIntervalFn], ?_⟩
  intro t ht
  simp [startAutoPlay, setIntervalFn] at ht
  subst ht
  simp [startAutoPlay, setIntervalFn]

lemma timerInv_stopAutoPlay (s : State) (h : TimerInv s) :
    TimerInv (stopAutoPlay s) := by
  obtain ⟨h1, h2, h3⟩ := h
  rcases s with ⟨i, n, ms, tmr, p, lp, act, nh, r⟩
  cases tmr with
  | none =>
    simp at h1
    subst h1
    exact ⟨by simp [stopAutoPlay, clearIntervalFn], by simp [stopAutoPlay, clearIntervalFn],
      by simp [stopAutoPlay, clearIntervalFn]⟩
  | some h0 =>
    simp at h1
    obtain ⟨m, hm⟩ := act_eq_of_map_some act h0 h1
    subst hm
    refine ⟨?_, ?_, ?_⟩
    · simp [stopAutoPlay, clearIntervalFn, List.filter]
    · intro
      simp [stopAutoPlay, clearIntervalFn]
    · intro t ht
      simp [stopAutoPlay, clearIntervalFn, List.filter] at ht

lemma timerInv_nextSlide (s : State) (h : TimerInv s) : TimerInv (nextSlide s) := by
  simp only [nextSlide]
  split_ifs <;> exact timerInv_updateCarousel _ h

lemma timerInv_previousSlide (s : State) (h : TimerInv s) : TimerInv (previousSlide s) := by
  simp only [previousSlide]
  split_ifs <;> exact timerInv_updateCarousel _ h

lemma timerInv_goToSlide (s : State) (k : Int) (h : TimerInv s) : TimerInv (goToSlide s k) := by
  simp only [goToSlide]
  split_ifs with hk
  · exact timerInv_updateCarousel _ h
  · exact h

lemma timerInv_toggleAutoPlay (s : State) (h : TimerInv s) : TimerInv (toggleAutoPlay s) := by
  simp only [toggleAutoPlay]
  split_ifs with hp
  · exact timerInv_stopAutoPlay s h
  · exact timerInv_startAutoPlay s h (by simpa using hp)

lemma timerInv_applyOp (op : Op) (s : State) (h : TimerInv s) : TimerInv (applyOp op s) := by
  cases op with
  | next => exact timerInv_nextSlide s h
  | prev => exact timerInv_previousSlide s h
  | goTo k => exact timerInv_goToSlide s k h
  | toggle => exact timerInv_toggleAutoPlay s h
  | stop => exact timerInv_stopAutoPlay s h

lemma timerInv_runOps (ops : List Op) (s : State) (h : TimerInv s) :
    TimerInv (runOps ops s) := by
  induction ops generalizing s with
  | nil => exact h
  | cons op ops ih => exact ih (applyOp op s) (timerInv_applyOp op s h)

lemma timerInv_mkCarousel (cfg : Config) (n : Int) : TimerInv (mkCarousel cfg n) := by
  refine timerInv_updateCarousel _ ?_
  exact ⟨rfl, fun _ => rfl, by intro t ht; cases ht⟩

lemma activeTimers_length_le_one (s : State) (h : TimerInv s) :
    s.activeTimers.length ≤ 1 := by
  obtain ⟨h1, _, _⟩ := h
  have hlen : s.activeTimers.length = s.autoPlayTimer.toList.length := by
    rw [← h1, List.length_map]
  rw [hlen]
  cases s.autoPlayTimer <;> simp

lemma updateCarousel_reset_of_playing (s : State) (hp : s.isPlaying = true)
    (h1 : s.activeTimers.map Prod.fst = s.autoPlayTimer.toList) :
    (updateCarousel s).autoPlayTimer = some s.nextHandle ∧
      (updateCarousel s).activeTimers = [(s.nextHandle, s.autoPlayInterval)] := by
  rcases s with ⟨i, n, ms, tmr, p, lp, act, nh, r⟩
  simp only at hp
  subst hp
  have hrw : updateCarousel (State.mk i n ms tmr true lp act nh r)
      = resetAutoPlay (State.mk i n ms tmr true lp act nh (r + 1)) := rfl
  rw [hrw]
  exact ⟨resetAutoPlay_autoPlayTimer _, resetAutoPlay_activeTimers_inv _ h1⟩

/-! The claims. -/

/-- Claim C1: for every totalSlides N ≥ 1, starting from any currentIndex in
[0, N-1], after any finite sequence of nextSlide and previousSlide calls,
with looping enabled or disabled, currentIndex remains within [0, N-1]. -/
theorem nav_sequence_index_in_range (s : State) (ops : List NavOp)
    (hN : 1 ≤ s.totalSlides) (h0 : 0 ≤ s.currentIndex)
    (h1 : s.currentIndex < s.totalSlides) :
    0 ≤ (runNav ops s).currentIndex ∧
      (runNav ops s).currentIndex < (runNav ops s).totalSlides := by
  induction ops generalizing s with
  | nil => exact ⟨h0, h1⟩
  | cons op ops ih =>
    have hstep := applyNav_index_range op s hN h0 h1
    have hts := applyNav_totalSlides op s
    exact ih (applyNav op s) (hts ▸ hN) hstep.1 (hts ▸ hstep.2)

/-- Claim C1 witness: a concrete run with N = 3 stays in range. -/
theorem nav_sequence_index_in_range_witness :
    (1 : Int) ≤ 3 ∧
      0 ≤ (runNav [NavOp.next, NavOp.next, NavOp.next, NavOp.prev]
        { currentIndex := 1, totalSlides := 3, autoPlayInterval := 3000,
          autoPlayTimer := none, isPlaying := false, enableLoop := true,
          activeTimers := [], nextHandle := 0, renders := 0 }).currentIndex :=
  ⟨by decide,
    (nav_sequence_index_in_range
      { currentIndex := 1, totalSlides := 3, autoPlayInterval := 3000,
        autoPlayTimer := none, isPlaying := false, enableLoop := true,
        activeTimers := [], nextHandle := 0, renders := 0 }
      [NavOp.next, NavOp.next, NavOp.next, NavOp.prev]
      (by decide) (by decide) (by decide)).1⟩

/-- Claim C2, counterexample: startAutoPlay does NOT cancel an existing
timer handle before scheduling a new one. Starting from a freshly
constructed 3-slide carousel, the first startAutoPlay records handle 0;
a second startAutoPlay leaves handle 0 scheduled and active alongside the
new handle, so two timers are active and the old handle is leaked. -/
theorem startAutoPlay_does_not_cancel :
    (startAutoPlay (mkCarousel (Config.mk none none none) 3)).autoPlayTimer = some 0
    ∧ (0, 3000) ∈
        (startAutoPlay (startAutoPlay (mkCarousel (Config.mk none none none) 3))).activeTimers
    ∧ (startAutoPlay
        (startAutoPlay (mkCarousel (Config.mk none none none) 3))).activeTimers.length = 2 := by
  decide

/-- Claim C2 (amended): resetAutoPlay first cancels the recorded timer
handle before scheduling a new one; and along every sequence of public
operations (nextSlide, previousSlide, goToSlide, toggleAutoPlay,
stopAutoPlay) from a freshly constructed carousel — where autoplay starts
only through toggleAutoPlay — at most one autoplay timer is ever active.
Calling startAutoPlay directly while a timer is pending is excluded: it
schedules without cancelling (see the counterexample). -/
theorem timer_discipline (cfg : Config) (n : Int) (ops : List Op) :
    (runOps ops (mkCarousel cfg n)).activeTimers.length ≤ 1
    ∧ ∀ s h0, s.autoPlayTimer = some h0 →
        (resetAutoPlay s).activeTimers =
          (s.nextHandle, s.autoPlayInterval) :: s.activeTimers.filter (fun t => t.1 ≠ h0) := by
  constructor
  · exact activeTimers_length_le_one _ (timerInv_runOps ops _ (timerInv_mkCarousel cfg n))
  · intro s h0 htm
    exact resetAutoPlay_activeTimers_some s h0 htm

/-- Claim C2 witness: a concrete operation sequence keeps at most one
timer, and resetAutoPlay on a concrete playing state drops the old handle
while scheduling the new one. -/
theorem timer_discipline_witness :
    (runOps [Op.toggle, Op.next] (mkCarousel (Config.mk none none none) 3)).activeTimers.length ≤ 1
    ∧ (resetAutoPlay playingFixture).activeTimers =
        (playingFixture.nextHandle, playingFixture.autoPlayInterval) ::
          playingFixture.activeTimers.filter (fun t => t.1 ≠ 0) :=
  ⟨(timer_discipline (Config.mk none none none) 3 [Op.toggle, Op.next]).1,
    (timer_discipline (Config.mk none none none) 3 [Op.toggle, Op.next]).2
      playingFixture 0 (by decide)⟩

/-- Claim C3: nextSlide increments currentIndex when currentIndex <
totalSlides - 1, else wraps to 0 when looping is enabled, else leaves
currentIndex unchanged; with looping on and N = 3 index 2 goes to 0, and
with looping off at index 2 the index is unchanged. -/
theorem nextSlide_behavior (s : State) :
    ((nextSlide s).currentIndex =
      if s.currentIndex < s.totalSlides - 1 then s.currentIndex + 1
      else if s.enableLoop then 0 else s.currentIndex)
    ∧ (nextSlide (fixture 2 3 true)).currentIndex = 0
    ∧ (nextSlide (fixture 2 3 false)).currentIndex = 2 :=
  ⟨nextSlide_currentIndex s, by decide, by decide⟩

/-- Claim C4: previousSlide decrements currentIndex when currentIndex > 0,
else wraps to totalSlides - 1 when looping is enabled, else leaves
currentIndex unchanged; with looping on and N = 3 index 0 goes to 2, and
with looping off at index 0 the index is unchanged. -/
theorem previousSlide_behavior (s : State) :
    ((previousSlide s).currentIndex =
      if s.currentIndex > 0 then s.currentIndex - 1
      else if s.enableLoop then s.totalSlides - 1 else s.currentIndex)
    ∧ (previousSlide (fixture 0 3 true)).currentIndex = 2
    ∧ (previousSlide (fixture 0 3 false)).currentIndex = 0 :=
  ⟨previousSlide_currentIndex s, by decide, by decide⟩

/-- Claim C5: goToSlide k sets currentIndex = k exactly when 0 ≤ k <
totalSlides (and triggers one render pass); outside that range the call
leaves the entire engine state unchanged and triggers no render. -/
theorem goToSlide_behavior (s : State) (k : Int) :
    (k ≥ 0 ∧ k < s.totalSlides →
      (goToSlide s k).currentIndex = k ∧
        (goToSlide s k).renders = s.renders + 1)
    ∧ (¬(k ≥ 0 ∧ k < s.totalSlides) → goToSlide s k = s) := by
  constructor
  · intro h
    simp [goToSlide, h]
  · intro h
    simp [goToSlide, h]

/-- Claim C5 witness: with 3 slides, goToSlide 1 lands on index 1 after one
render, and goToSlide 5 leaves the state untouched. -/
theorem goToSlide_behavior_witness :
    ((goToSlide (fixture 0 3 true) 1).currentIndex = 1 ∧
      (goToSlide (fixture 0 3 true) 1).renders = (fixture 0 3 true).renders + 1)
    ∧ goToSlide (fixture 0 3 true) 5 = fixture 0 3 true :=
  ⟨(goToSlide_behavior (fixture 0 3 true) 1).1 (by decide),
    (goToSlide_behavior (fixture 0 3 true) 5).2 (by decide)⟩

/-- Claim C6: when isPlaying is true, every index-changing operation
(nextSlide, previousSlide, in-range goToSlide) resets the autoplay timer:
afterwards exactly the freshly scheduled timer with period
autoPlayInterval is active and recorded, and the previously recorded
handle (necessarily different from the fresh one) is no longer scheduled. -/
theorem nav_resets_autoplay_timer (s : State) (k : Int)
    (hp : s.isPlaying = true) (hinv : TimerInv s) :
    ((nextSlide s).autoPlayTimer = some s.nextHandle ∧
      (nextSlide s).activeTimers = [(s.nextHandle, s.autoPlayInterval)])
    ∧ ((previousSlide s).autoPlayTimer = some s.nextHandle ∧
      (previousSlide s).activeTimers = [(s.nextHandle, s.autoPlayInterval)])
    ∧ (0 ≤ k ∧ k < s.totalSlides →
      (goToSlide s k).autoPlayTimer = some s.nextHandle ∧
      (goToSlide s k).activeTimers = [(s.nextHandle, s.autoPlayInterval)])
    ∧ (∀ h0, s.autoPlayTimer = some h0 → h0 ≠ s.nextHandle) := by
  obtain ⟨h1, h2, h3⟩ := hinv
  refine ⟨?_, ?_, ?_, ?_⟩
  · simp only [nextSlide]
    split_ifs <;> exact updateCarousel_reset_of_playing _ hp h1
  · simp only [previousSlide]
    split_ifs <;> exact updateCarousel_reset_of_playing _ hp h1
  · intro hk
    simp only [goToSlide]
    split_ifs with hkk
    · exact updateCarousel_reset_of_playing _ hp h1
    · exact absurd ⟨hk.1, hk.2⟩ hkk
  · intro h0 htm heq
    rw [htm] at h1
    obtain ⟨m, hm⟩ := act_eq_of_map_some s.activeTimers h0 (by simpa using h1)
    have hlt := h3 (h0, m) (by rw [hm]; simp)
    simp at hlt
    omega

/-- Claim C6 witness: on a concrete playing 3-slide carousel, nextSlide,
previousSlide and goToSlide 1 each cancel the pending handle and schedule
a fresh timer with the configured period. -/
theorem nav_resets_autoplay_timer_witness :
    ((nextSlide playingFixture).autoPlayTimer = some playingFixture.nextHandle ∧
      (nextSlide playingFixture).activeTimers =
        [(playingFixture.nextHandle, playingFixture.autoPlayInterval)])
    ∧ ((previousSlide playingFixture).autoPlayTimer = some playingFixture.nextHandle ∧
      (previousSlide playingFixture).activeTimers =
        [(playingFixture.nextHandle, playingFixture.autoPlayInterval)])
    ∧ (0 ≤ (1 : Int) ∧ (1 : Int) < playingFixture.totalSlides →
      (goToSlide playingFixture 1).autoPlayTimer = some playingFixture.nextHandle ∧
      (goToSlide playingFixture 1).activeTimers =
        [(playingFixture.nextHandle, playingFixture.autoPlayInterval)])
    ∧ (∀ h0, playingFixture.autoPlayTimer = some h0 → h0 ≠ playingFixture.nextHandle) :=
  nav_resets_autoplay_timer playingFixture 1 (by decide) (by decide)

/-- Claim C7: stopAutoPlay is idempotent and safe in any state: one call
leaves isPlaying = false and no recorded timer, a second call in a row is
a no-op on the whole engine state, and under the timer invariant no
scheduled timer remains after stopping. -/
theorem stopAutoPlay_idempotent_safe (s : State) :
    (stopAutoPlay s).isPlaying = false
    ∧ (stopAutoPlay s).autoPlayTimer = none
    ∧ stopAutoPlay (stopAutoPlay s) = stopAutoPlay s
    ∧ (TimerInv s → (stopAutoPlay s).activeTimers = []) := by
  rcases s with ⟨i, n, ms, tmr, p, lp, act, nh, r⟩
  cases tmr with
  | none =>
    refine ⟨rfl, rfl, rfl, ?_⟩
    intro hinv
    obtain ⟨hh1, _, _⟩ := hinv
    simp at hh1
    exact hh1
  | some h0 =>
    refine ⟨rfl, rfl, rfl, ?_⟩
    intro hinv
    obtain ⟨hh1, _, _⟩ := hinv
    simp at hh1
    obtain ⟨m, hm⟩ := act_eq_of_map_some act h0 hh1
    subst hm
    simp [stopAutoPlay, clearIntervalFn, List.filter]

/-- Claim C7 witness: stopping the concrete playing carousel releases its
timer and leaves isPlaying = false. -/
theorem stopAutoPlay_idempotent_safe_witness :
    (stopAutoPlay playingFixture).isPlaying = false
    ∧ (stopAutoPlay playingFixture).activeTimers = [] :=
  ⟨(stopAutoPlay_idempotent_safe playingFixture).1,
    (stopAutoPlay_idempotent_safe playingFixture).2.2.2 (by decide)⟩

/-- Claim C8: construction defaults autoPlayInterval to 3000 when the
option is absent and enableLoop to true when absent; and regardless of any
enableAutoPlay option (the quantified cfg carries an arbitrary one), the
carousel is not playing after construction, with no recorded timer and no
scheduled timer. -/
theorem construction_defaults (cfg : Config) (n : Int) :
    (cfg.autoPlayInterval = none → (mkCarousel cfg n).autoPlayInterval = 3000)
    ∧ (cfg.enableLoop = none → (mkCarousel cfg n).enableLoop = true)
    ∧ (mkCarousel cfg n).isPlaying = false
    ∧ (mkCarousel cfg n).autoPlayTimer = none
    ∧ (mkCarousel cfg n).activeTimers = [] := by
  rcases cfg with ⟨ai, aa, el⟩
  refine ⟨?_, ?_, rfl, rfl, rfl⟩
  · intro h
    simp only at h
    subst h
    rfl
  · intro h
    simp only at h
    subst h
    rfl

/-- Claim C8 witness: a concrete configuration with both defaults absent
and enableAutoPlay = some true still constructs a non-playing carousel
with interval 3000 and looping on. -/
theorem construction_defaults_witness :
    (mkCarousel (Config.mk none (some true) none) 3).autoPlayInterval = 3000
    ∧ (mkCarousel (Config.mk none (some true) none) 3).enableLoop = true
    ∧ (mkCarousel (Config.mk none (some true) none) 3).isPlaying = false :=
  ⟨(construction_defaults (Config.mk none (some true) none) 3).1 rfl,
    (construction_defaults (Config.mk none (some true) none) 3).2.1 rfl,
    (construction_defaults (Config.mk none (some true) none) 3).2.2.1⟩

/-- Claim C9: the constructor default for autoPlayInterval applies to every
falsy value, not only to an absent option: passing 0 stores 3000, any
non-zero value — including a negative one — is stored as given, and the
stated autoPlayIntervalMs > 0 invariant fails for a negative input. -/
theorem autoPlayInterval_falsy_default (cfg : Config) (n v : Int) :
    (cfg.autoPlayInterval = some 0 → (mkCarousel cfg n).autoPlayInterval = 3000)
    ∧ (cfg.autoPlayInterval = some v → v ≠ 0 → (mkCarousel cfg n).autoPlayInterval = v)
    ∧ (mkCarousel (Config.mk (some (-5)) none none) 3).autoPlayInterval = -5
    ∧ ¬(0 < (mkCarousel (Config.mk (some (-5)) none none) 3).autoPlayInterval) := by
  refine ⟨?_, ?_, by decide, by decide⟩
  · intro h
    rcases cfg with ⟨ai, aa, el⟩
    simp only at h
    subst h
    rfl
  · intro h hv
    rcases cfg with ⟨ai, aa, el⟩
    simp only at h
    subst h
    show (if v = 0 then (3000 : Int) else v) = v
    rw [if_neg hv]

/-- Claim C9 witness: autoPlayInterval = some 0 stores 3000 (same as
omitting it) and autoPlayInterval = some 7 stores 7. -/
theorem autoPlayInterval_falsy_default_witness :
    (mkCarousel (Config.mk (some 0) none none) 5).autoPlayInterval = 3000
    ∧ (mkCarousel (Config.mk (some 7) none none) 5).autoPlayInterval = 7 :=
  ⟨(autoPlayInterval_falsy_default (Config.mk (some 0) none none) 5 0).1 rfl,
    (autoPlayInterval_falsy_default (Config.mk (some 7) none none) 5 7).2.1 rfl (by decide)⟩

/-- Claim C10: with totalSlides = 0 and looping enabled, previousSlide from
the freshly constructed state sets currentIndex to -1 (= totalSlides - 1),
leaving the documented [0, totalSlides) range, and a subsequent nextSlide
returns currentIndex to 0. -/
theorem zero_slides_previousSlide_underflow :
    (previousSlide (mkCarousel
        { autoPlayInterval := none, enableAutoPlay := none, enableLoop := none }
        0)).currentIndex = -1
    ∧ (previousSlide (mkCarousel
        { autoPlayInterval := none, enableAutoPlay := none, enableLoop := none }
        0)).currentIndex =
        (mkCarousel
          { autoPlayInterval := none, enableAutoPlay := none, enableLoop := none }
          0).totalSlides - 1
    ∧ ¬(0 ≤ (previousSlide (mkCarousel
        { autoPlayInterval := none, enableAutoPlay := none, enableLoop := none }
        0)).currentIndex)
    ∧ (nextSlide (previousSlide (mkCarousel
        { autoPlayInterval := none, enableAutoPlay := none, enableLoop := none }
        0))).currentIndex = 0 := by
  decide

end Carousel
